import Mathlib

/-!
Shallow embedding of the progress-tracking and cancellation core of the
YTDownloader repository.

The primary source is `YTDownloader2025_SonnetEditsV7_TP.py`
(`YoutubeDownloader` and `DownloadManagerApp`); `YTDownloader2025v7.1.py`
and `YTDownloader2025.py` contribute their `progress_hook` variants and the
filename-collision loop.  Pure logic (progress normalization, cancellation
flags, filename collision resolution, temp-file cleanup, input validation)
is embedded directly; the wrapped yt-dlp library is modelled as an opaque
source of raw progress callbacks followed by an outcome, and the filesystem
as explicit data (directory-validity predicates, lists of file names).

The Python sources compute the download percentage as
`int((downloaded_bytes / total_bytes) * 100)`, i.e. through binary
floating-point division truncated toward zero.  This embedding idealizes
that computation as exact rational arithmetic truncated toward zero, which
for non-negative integers is Nat floor division `downloaded * 100 / total`.
-/

namespace YTD

/-- Raw progress-callback status delivered by the wrapped library
(`d['status']` in the Python hooks).  `other` stands for any status string
different from the three strings the code compares against. -/
inductive RawStatus
  | downloading
  | finished
  | error
  | other
  deriving DecidableEq, Repr

/-- The fields of the raw progress dictionary `d` that the hooks read.
`downloaded_bytes` is read as `d.get('downloaded_bytes', 0)`, so an absent
key is the same as 0.  The display-only fields `speed`, `eta` and
`filename` are not modelled: no claim mentions them and they do not feed
back into control flow. -/
structure RawProgress where
  status : RawStatus
  total_bytes : Option Nat
  total_bytes_estimate : Option Nat
  downloaded_bytes : Nat
  err : Option String
  deriving DecidableEq, Repr

/-- Python `d.get('total_bytes') or d.get('total_bytes_estimate')`:
both `None` and `0` are falsy, so either falls through to the estimate. -/
def orTotal : Option Nat → Option Nat → Option Nat
  | some t, b => if t = 0 then b else some t
  | none, b => b

/-- Normalized status of an emitted progress event (`progress_info['status']`
in the source): `downloading`, `converting`, `complete`, `cancelled`,
`error`. -/
inductive Status
  | downloading
  | converting
  | complete
  | cancelled
  | error
  deriving DecidableEq, Repr

/-- A normalized progress event handed to the progress callback.  Mirrors
the `progress_info` dictionaries of the source; the display-only `speed`,
`eta` and `filename` entries are not modelled. -/
structure ProgressInfo where
  percent : Nat
  status : Status
  error : Option String := none
  deriving DecidableEq, Repr

/-- The downloader state read and written by `progress_hook`,
`cancel_download` and `download_video`: the `self.downloading` and
`self.cancel_requested` flags of `YoutubeDownloader`. -/
structure DLState where
  downloading : Bool
  cancel_requested : Bool
  deriving DecidableEq, Repr

/-- `int((downloaded_bytes / total_bytes) * 100)` from the source,
idealized as exact arithmetic truncated toward zero (Nat floor division). -/
def percentOf (downloaded total : Nat) : Nat :=
  downloaded * 100 / total

/-- Result of one `progress_hook` invocation: it raises
`DownloadCancelledError`, calls the progress callback with one event, or
returns without calling it. -/
inductive HookAct
  | raiseCancelled
  | emit (p : ProgressInfo)
  | skip
  deriving DecidableEq, Repr

/-- `YoutubeDownloader.progress_hook` of `YTDownloader2025_SonnetEditsV7_TP.py`.
The progress callback is present (the app always installs one), so the
`if self.progress_callback` guards are taken. -/
def progress_hook (s : DLState) (d : RawProgress) : HookAct :=
  if !s.downloading || s.cancel_requested then
    if s.cancel_requested && d.status == RawStatus.downloading then
      HookAct.raiseCancelled
    else
      HookAct.skip
  else
    match d.status with
    | RawStatus.downloading =>
        let pct :=
          match orTotal d.total_bytes d.total_bytes_estimate with
          | some t =>
              if t != 0 && d.downloaded_bytes != 0 then
                percentOf d.downloaded_bytes t
              else 0
          | none => 0
        HookAct.emit { percent := pct, status := Status.downloading }
    | RawStatus.finished =>
        HookAct.emit { percent := 95, status := Status.converting }
    | RawStatus.error =>
        HookAct.emit { percent := 0, status := Status.error,
                       error := some (d.err.getD "Unknown error") }
    | RawStatus.other => HookAct.skip

/-- `YoutubeDownloader.progress_hook` of `YTDownloader2025v7.1.py`.  It
differs from the TP variant in the unknown-total branch: when the total is
unknown but some bytes were downloaded it reports a fixed percent of 50. -/
def progress_hook_v71 (s : DLState) (d : RawProgress) : HookAct :=
  if !s.downloading || s.cancel_requested then
    if s.cancel_requested && d.status == RawStatus.downloading then
      HookAct.raiseCancelled
    else
      HookAct.skip
  else
    match d.status with
    | RawStatus.downloading =>
        let pct :=
          match orTotal d.total_bytes d.total_bytes_estimate with
          | some t =>
              if t != 0 && d.downloaded_bytes != 0 then
                percentOf d.downloaded_bytes t
              else if d.downloaded_bytes != 0 then 50
              else 0
          | none => if d.downloaded_bytes != 0 then 50 else 0
        HookAct.emit { percent := pct, status := Status.downloading }
    | RawStatus.finished =>
        HookAct.emit { percent := 95, status := Status.converting }
    | RawStatus.error =>
        HookAct.emit { percent := 0, status := Status.error,
                       error := some (d.err.getD "Unknown error") }
    | RawStatus.other => HookAct.skip

/-- The `progress_hook` nested in `download_video_with_progress` of
`YTDownloader2025.py`.  Its callback receives a bare integer; when the raw
status is not `downloading` the callback is not invoked (`none`). -/
def progress_hook_2025 (d : RawProgress) : Option Nat :=
  match d.status with
  | RawStatus.downloading =>
      some (match orTotal d.total_bytes d.total_bytes_estimate with
            | some t =>
                if t != 0 && d.downloaded_bytes != 0 then
                  percentOf d.downloaded_bytes t
                else 0
            | none => 0)
  | _ => none

/-- `YoutubeDownloader.cancel_download`.  The attempted
`self.ydl_instance.interrupt_download()` is effect-free on the modelled
state: `yt_dlp.YoutubeDL` has no such method and the bare `except`
swallows every exception from the attempt. -/
def cancel_download (s : DLState) : Bool × DLState :=
  if s.downloading then
    (true, { s with cancel_requested := true })
  else
    (false, s)

/-- The spec describes cancellation through an `OperationHandle`; the
code's `cancel_download` takes no handle at all.  This wrapper makes the
spec's handle and the identity of the currently active operation explicit
as ghost data and, faithful to the source, ignores both. -/
def cancel_download_handle (handle activeOp : Nat) (s : DLState) : Bool × DLState :=
  cancel_download s

/-- One raw callback from `ydl.download` to the installed hook, together
with whether the GUI thread invoked `cancel_download` (and it was
accepted, `self.downloading` being true for the whole run) just before
this callback. -/
structure Step where
  cancelBefore : Bool
  raw : RawProgress
  deriving DecidableEq, Repr

/-- How `ydl.download([url])` ends when no hook raised: normal return, or
one of the exception classes distinguished by `download_video`'s `except`
clauses (`yt_dlp.utils.DownloadError`, `IOError`/`OSError`, or any other
unclassified exception). -/
inductive LibResult
  | success
  | dlError (msg : String)
  | osError (msg : String)
  | unexpected (msg : String)
  deriving DecidableEq, Repr

/-- One complete interaction of a `download_video` call with the wrapped
library: whether a cancel was accepted between `self.downloading = True`
and the pre-download cancellation check, the raw callbacks delivered
during `ydl.download`, and how `ydl.download` ends if no hook raised. -/
structure LibRun where
  preCancel : Bool
  steps : List Step
  result : LibResult
  deriving DecidableEq, Repr

/-- Runs the installed `progress_hook` over the raw callbacks, threading
the `cancel_requested` flag (`self.downloading` stays true for the whole
run).  Returns the events handed to the progress callback and whether a
hook raised `DownloadCancelledError`, which aborts `ydl.download`. -/
def runHooks : Bool → List Step → List ProgressInfo × Bool
  | _, [] => ([], false)
  | c, s :: rest =>
    let c2 := c || s.cancelBefore
    match progress_hook { downloading := true, cancel_requested := c2 } s.raw with
    | HookAct.raiseCancelled => ([], true)
    | HookAct.emit p =>
        let r := runHooks c2 rest
        (p :: r.1, r.2)
    | HookAct.skip => runHooks c2 rest

/-- The terminal event of the success path of `download_video`
(`{'percent': 100, 'status': 'complete', ...}`). -/
def completeInfo : ProgressInfo :=
  { percent := 100, status := Status.complete }

/-- The terminal event of the `DownloadCancelledError` handler
(`{'percent': 0, 'status': 'cancelled', ...}`). -/
def cancelledInfo : ProgressInfo :=
  { percent := 0, status := Status.cancelled }

/-- The terminal event of the three error handlers
(`{'percent': 0, 'status': 'error', 'error': msg, ...}`). -/
def errorInfo (msg : String) : ProgressInfo :=
  { percent := 0, status := Status.error, error := some msg }

/-- The full sequence of events handed to the progress callback by one
call of `YoutubeDownloader.download_video`: the hook emissions during
`ydl.download`, followed by the event of whichever completion or `except`
branch runs.  A `DownloadCancelledError` — from the pre-download
`cancel_requested` check or raised by the hook — lands in the `cancelled`
branch; `yt_dlp.utils.DownloadError`, `IOError`/`OSError` and the
catch-all `except Exception` branches each emit one `error` event. -/
def download_video_trace (run : LibRun) : List ProgressInfo :=
  if run.preCancel then [cancelledInfo]
  else
    let r := runHooks false run.steps
    if r.2 then r.1 ++ [cancelledInfo]
    else
      match run.result with
      | LibResult.success => r.1 ++ [completeInfo]
      | LibResult.dlError msg => r.1 ++ [errorInfo msg]
      | LibResult.osError msg => r.1 ++ [errorInfo ("File error: " ++ msg)]
      | LibResult.unexpected msg => r.1 ++ [errorInfo msg]

/-- The statuses `DownloadManagerApp.update_progress` treats as the end of
an operation (`'complete'`, `'cancelled'`, `'error'`): the claims' terminal
events Completed, Cancelled and Failed. -/
def isTerminal : Status → Bool
  | Status.complete => true
  | Status.cancelled => true
  | Status.error => true
  | _ => false

/-- Number of terminal events in a callback trace. -/
def countTerminal (tr : List ProgressInfo) : Nat :=
  (tr.filter (fun p => isTerminal p.status)).length

/-- True when some cancel was accepted during the run (before the
pre-download check or before one of the raw callbacks). -/
def cancelSeen (run : LibRun) : Bool :=
  run.preCancel || run.steps.any (fun s => s.cancelBefore)

/-- True when, after some accepted cancel, a raw callback with status
`downloading` still arrives — the checkpoint at which the hook raises
`DownloadCancelledError`. -/
def cancelHitsDownloading : Bool → List Step → Bool
  | _, [] => false
  | c, s :: rest =>
    let c2 := c || s.cancelBefore
    (c2 && s.raw.status == RawStatus.downloading) || cancelHitsDownloading c2 rest

/-- String prefix test, computed structurally on the character lists
(`List.isPrefixOf`), so that concrete instances evaluate by `rfl`. -/
def strStartsWith (s p : String) : Bool :=
  p.data.isPrefixOf s.data

/-- String suffix test, computed structurally on the character lists. -/
def strEndsWith (s p : String) : Bool :=
  p.data.reverse.isPrefixOf s.data.reverse

/-- Character membership test, computed structurally on the character
list. -/
def strContains (s : String) (c : Char) : Bool :=
  s.data.contains c

/-- Python `str.strip()` with no argument: removes leading and trailing
whitespace. -/
def pyStrip (s : String) : String :=
  ⟨((s.data.dropWhile Char.isWhitespace).reverse.dropWhile Char.isWhitespace).reverse⟩

/-- The filesystem facts `validate_directory` consults, as explicit data:
`os.path.isdir` and `os.access(·, os.W_OK)`. -/
structure FileSys where
  isdir : String → Bool
  writable : String → Bool

/-- `validate_directory` of `YTDownloader2025_SonnetEditsV7_TP.py`. -/
def validate_directory (fs : FileSys) (dir : String) : Bool :=
  fs.isdir dir && fs.writable dir

/-- Strips the optional scheme group `(https?\:\/\/)?` of the URL regex. -/
def stripScheme (s : String) : String :=
  if strStartsWith s "https://" then s.drop 8
  else if strStartsWith s "http://" then s.drop 7
  else s

/-- Matches Python's `.+$` (no DOTALL, no MULTILINE) against the whole
remainder: one or more non-newline characters, optionally followed by one
trailing newline. -/
def dotPlusEnd (t : String) : Bool :=
  if strEndsWith t "\n" then
    let body := t.dropRight 1
    body != "" && !(strContains body '\n')
  else
    t != "" && !(strContains t '\n')

/-- `is_valid_youtube_url`: Python
`re.match(r'^(https?\:\/\/)?(www\.youtube\.com|youtu\.?be)\/.+$', url)`.
The host alternative `youtu\.?be` matches both `youtu.be` and `youtube`. -/
def is_valid_youtube_url (url : String) : Bool :=
  let rest := stripScheme url
  if strStartsWith rest "www.youtube.com/" then dotPlusEnd (rest.drop 16)
  else if strStartsWith rest "youtu.be/" then dotPlusEnd (rest.drop 9)
  else if strStartsWith rest "youtube/" then dotPlusEnd (rest.drop 8)
  else false

/-- The observer-side state touched by `DownloadManagerApp.download_video`,
`update_progress` and `cancel_download`: the in-progress flag, the
enabled/disabled state of the three buttons, and whether video info has
been fetched (`self.video_info`, carrying the title). -/
structure AppState where
  download_in_progress : Bool
  downloadBtnEnabled : Bool
  fetchBtnEnabled : Bool
  cancelBtnEnabled : Bool
  video_info : Option String
  deriving DecidableEq, Repr

/-- How a call of `DownloadManagerApp.download_video` returns: one of the
synchronous validation error boxes, the fetch-first info box, or a
started download.  There is no busy outcome in the source. -/
inductive StartOutcome
  | errEmptyUrl
  | errInvalidUrl
  | errInvalidDir
  | errNoFfmpeg
  | infoNotLoaded
  | started
  deriving DecidableEq, Repr

/-- `DownloadManagerApp.download_video` of
`YTDownloader2025_SonnetEditsV7_TP.py`, in source order: empty-URL check,
URL validation, `validate_directory`, `is_ffmpeg_installed`, `video_info`
presence, then it flips the buttons, sets `download_in_progress` and
spawns the worker thread.  Returns the outcome, the updated observer
state, and whether a download worker thread was spawned.  The
`infoNotLoaded` branch triggers a metadata fetch but spawns no download
worker and emits no progress events. -/
def app_download_video (fs : FileSys) (ffmpegInstalled : Bool) (s : AppState)
    (urlEntry dirEntry : String) : StartOutcome × AppState × Bool :=
  let url := pyStrip urlEntry
  if url == "" then (StartOutcome.errEmptyUrl, s, false)
  else if !is_valid_youtube_url url then (StartOutcome.errInvalidUrl, s, false)
  else
    let dir := pyStrip dirEntry
    if !validate_directory fs dir then (StartOutcome.errInvalidDir, s, false)
    else if !ffmpegInstalled then (StartOutcome.errNoFfmpeg, s, false)
    else
      match s.video_info with
      | none => (StartOutcome.infoNotLoaded, s, false)
      | some _ =>
          (StartOutcome.started,
           { s with download_in_progress := true,
                    downloadBtnEnabled := false,
                    fetchBtnEnabled := false,
                    cancelBtnEnabled := true },
           true)

/-- A user click on the Download button: tkinter delivers the command
only while the button is enabled (`state=tk.NORMAL`); a click on a
disabled button does nothing. -/
def clickDownload (fs : FileSys) (ffmpegInstalled : Bool) (s : AppState)
    (urlEntry dirEntry : String) : Option (StartOutcome × AppState × Bool) :=
  if s.downloadBtnEnabled then
    some (app_download_video fs ffmpegInstalled s urlEntry dirEntry)
  else
    none

/-- The observer-state effect of `DownloadManagerApp.update_progress`: on
a terminal status (`'complete'`, `'cancelled'`, `'error'`) it clears the
in-progress flag and flips the buttons back; every other status only
updates the display, which is outside the model. -/
def app_update_progress (s : AppState) (p : ProgressInfo) : AppState :=
  if p.status == Status.complete || p.status == Status.cancelled
      || p.status == Status.error then
    { s with download_in_progress := false,
             cancelBtnEnabled := false,
             downloadBtnEnabled := true,
             fetchBtnEnabled := true }
  else s

/-- The collision candidate built inside the `while os.path.exists` loop
of `YoutubeDownloader.download_video` (v7.1):
`f"{base_filename} ({counter}) (Audio).{final_ext}"` for mp3, the
`(Video)` twin otherwise. -/
def mkCandidate (isAudio : Bool) (base ext : String) (c : Nat) : String :=
  base ++ " (" ++ toString c ++ ") " ++
    (if isAudio then "(Audio)." else "(Video).") ++ ext

/-- The `while os.path.exists(final_path)` loop: keeps proposing
candidates with an incrementing counter until the name is free.  `fuel`
bounds the Python `while` loop, which in the source terminates because
the destination directory holds finitely many names. -/
def findFreeName (files : List String) (isAudio : Bool) (base ext : String) :
    Nat → String → Nat → Option String
  | 0, _, _ => none
  | fuel + 1, fname, c =>
    if files.contains fname then
      findFreeName files isAudio base ext fuel (mkCandidate isAudio base ext c) (c + 1)
    else
      some fname

/-- The collision-resolution step of `YoutubeDownloader.download_video`
(v7.1, lines 576-588): `base_filename = final_filename[:-len(final_ext)-1]`,
counter starting at 1, first check against the original name.  The name
returned is the one `shutil.move` then writes to. -/
def resolve_collision (files : List String) (isAudio : Bool) (ext fname : String)
    (fuel : Nat) : Option String :=
  findFreeName files isAudio (fname.dropRight (ext.length + 1)) ext fuel fname 1

/-- The fixed suffix list of `YoutubeDownloader._cleanup_temp_files`. -/
def temp_extensions : List String :=
  [".part", ".temp", ".f140.mp4", ".f137.mp4", ".f401.mp4", ".m4a", ".webm", ".ytdl"]

/-- `any(file.endswith(ext) for ext in temp_extensions)`. -/
def is_temp (f : String) : Bool :=
  temp_extensions.any (fun ext => strEndsWith f ext)

/-- `YoutubeDownloader._cleanup_temp_files`, as its effect on the list of
file names in the directory it is handed; each `os.remove` is modelled as
succeeding. -/
def cleanup_temp_files (files : List String) : List String :=
  files.filter (fun f => !is_temp f)

/-- The destination-directory file-list effect of one
`YoutubeDownloader.download_video` call (TP variant): the success path and
the `DownloadCancelledError` handler both call
`self._cleanup_temp_files(download_dir)` on the final destination
directory; the error handlers do not. -/
def download_video_fs (destFiles : List String) (run : LibRun) : List String :=
  if run.preCancel then cleanup_temp_files destFiles
  else if (runHooks false run.steps).2 then cleanup_temp_files destFiles
  else
    match run.result with
    | LibResult.success => cleanup_temp_files destFiles
    | _ => destFiles

/-! Concrete instances used to evaluate the model at specific inputs. -/

/-- Downloader state during an active, uncancelled download. -/
def startedState : DLState :=
  { downloading := true, cancel_requested := false }

/-- A raw `downloading` callback with the given total field and byte count. -/
def rawDownloading (t : Option Nat) (d : Nat) : RawProgress :=
  { status := RawStatus.downloading, total_bytes := t, total_bytes_estimate := none,
    downloaded_bytes := d, err := none }

/-- A raw `error` callback carrying a library error message. -/
def rawError (msg : String) : RawProgress :=
  { status := RawStatus.error, total_bytes := none, total_bytes_estimate := none,
    downloaded_bytes := 0, err := some msg }

/-- A raw `finished` callback (transfer done, post-processing starting). -/
def rawFinished : RawProgress :=
  { status := RawStatus.finished, total_bytes := none, total_bytes_estimate := none,
    downloaded_bytes := 0, err := none }

/-- A run in which the library relays a raw `error` callback through the
hook and then aborts `ydl.download` with `yt_dlp.utils.DownloadError`:
the realistic failure shape under `ignoreerrors: False`. -/
def runErrorRelay : LibRun :=
  { preCancel := false,
    steps := [{ cancelBefore := false, raw := rawError "network" }],
    result := LibResult.dlError "network" }

/-- A run in which a cancel is accepted after the last raw `downloading`
callback: the remaining callback has status `finished`, and `ydl.download`
returns normally. -/
def runLateCancel : LibRun :=
  { preCancel := false,
    steps := [{ cancelBefore := true, raw := rawFinished }],
    result := LibResult.success }

/-- A run whose worker dies of an unclassified exception after one
ordinary progress callback. -/
def runUnexpected : LibRun :=
  { preCancel := false,
    steps := [{ cancelBefore := false, raw := rawDownloading (some 100) 50 }],
    result := LibResult.unexpected "boom" }

/-- A run cancelled before the pre-download cancellation check. -/
def runPreCancel : LibRun :=
  { preCancel := true, steps := [], result := LibResult.success }

/-- A plain success run with no raw callbacks. -/
def runSuccess : LibRun :=
  { preCancel := false, steps := [], result := LibResult.success }

/-- A raw `downloading` callback whose byte count exceeds the reported
total (possible when the total is the library's estimate). -/
def overshootRaw : RawProgress := rawDownloading (some 100) 200

/-- A raw `downloading` callback with no total information at all. -/
def rawUnknownTotal : RawProgress :=
  { status := RawStatus.downloading, total_bytes := none, total_bytes_estimate := none,
    downloaded_bytes := 1024, err := none }

/-- The percent values handed to the progress callback when the library
reports a fixed known total `t` and the byte counts `ds`, one raw
`downloading` callback per count, during an active uncancelled download. -/
def hookPercents (t : Nat) (ds : List Nat) : List Nat :=
  ds.filterMap (fun d =>
    match progress_hook startedState (rawDownloading (some t) d) with
    | HookAct.emit p => some p.percent
    | _ => none)

/-- A filesystem in which exactly the directory `/tmp/out` exists and is
writable. -/
def fs0 : FileSys :=
  { isdir := fun d => d == "/tmp/out", writable := fun d => d == "/tmp/out" }

/-- A filesystem with no usable directory at all. -/
def fsEmpty : FileSys :=
  { isdir := fun _ => false, writable := fun _ => false }

/-- Observer state ready to start a download: nothing in progress, video
info fetched, Download and Search enabled, Cancel disabled. -/
def idleApp : AppState :=
  { download_in_progress := false, downloadBtnEnabled := true, fetchBtnEnabled := true,
    cancelBtnEnabled := false, video_info := some "Title" }

/-- Observer state while a download is active: in-progress flag set,
Download and Search disabled, Cancel enabled. -/
def activeApp : AppState :=
  { download_in_progress := true, downloadBtnEnabled := false, fetchBtnEnabled := false,
    cancelBtnEnabled := true, video_info := some "Title" }

/-! Helper lemmas about the hook and the run semantics. -/

/-- Whatever event `progress_hook` emits has status `downloading`,
`converting`, or `error`, the last only when the raw status was `error`. -/
theorem progress_hook_emit_status (s : DLState) (d : RawProgress) (q : ProgressInfo)
    (h : progress_hook s d = HookAct.emit q) :
    q.status = Status.downloading ∨ q.status = Status.converting ∨
      (q.status = Status.error ∧ d.status = RawStatus.error) := by
  unfold progress_hook at h
  by_cases hg : (!s.downloading || s.cancel_requested) = true
  · rw [if_pos hg] at h
    split at h <;> simp at h
  · rw [if_neg hg] at h
    cases hd : d.status <;> rw [hd] at h
    · simp only [HookAct.emit.injEq] at h
      subst h
      exact Or.inl rfl
    · simp only [HookAct.emit.injEq] at h
      subst h
      exact Or.inr (Or.inl rfl)
    · simp only [HookAct.emit.injEq] at h
      subst h
      exact Or.inr (Or.inr ⟨rfl, rfl⟩)
    · simp at h

/-- During a run (`self.downloading` true throughout), the hook raises
`DownloadCancelledError` exactly when cancellation has been requested and
the raw status is `downloading`. -/
theorem progress_hook_raise_iff (c2 : Bool) (d : RawProgress) :
    progress_hook { downloading := true, cancel_requested := c2 } d
        = HookAct.raiseCancelled ↔
      (c2 = true ∧ d.status = RawStatus.downloading) := by
  cases c2 <;> cases hd : d.status <;> simp [progress_hook, hd]

/-- Every event the hooks emit during `ydl.download` has a status drawn
from `downloading`, `converting`, `error`; the `error` case requires a raw
`error` callback among the steps. -/
theorem runHooks_mem (c : Bool) (steps : List Step) (p : ProgressInfo)
    (hp : p ∈ (runHooks c steps).1) :
    p.status = Status.downloading ∨ p.status = Status.converting ∨
      (p.status = Status.error ∧ ∃ s ∈ steps, s.raw.status = RawStatus.error) := by
  induction steps generalizing c with
  | nil => simp [runHooks] at hp
  | cons s rest ih =>
    rw [runHooks] at hp
    rcases hact : progress_hook { downloading := true, cancel_requested := c || s.cancelBefore }
        s.raw with _ | q | _ <;> rw [hact] at hp <;> simp only [] at hp
    · simp at hp
    · rcases List.mem_cons.1 hp with rfl | hp2
      · rcases progress_hook_emit_status _ _ _ hact with h | h | ⟨h1, h2⟩
        · exact Or.inl h
        · exact Or.inr (Or.inl h)
        · exact Or.inr (Or.inr ⟨h1, s, List.mem_cons_self s rest, h2⟩)
      · rcases ih _ hp2 with h | h | ⟨h1, t, ht, h2⟩
        · exact Or.inl h
        · exact Or.inr (Or.inl h)
        · exact Or.inr (Or.inr ⟨h1, t, List.mem_cons_of_mem s ht, h2⟩)
    · rcases ih _ hp with h | h | ⟨h1, t, ht, h2⟩
      · exact Or.inl h
      · exact Or.inr (Or.inl h)
      · exact Or.inr (Or.inr ⟨h1, t, List.mem_cons_of_mem s ht, h2⟩)

/-- `ydl.download` is aborted by a hook-raised `DownloadCancelledError`
exactly when some accepted cancel is followed by a raw `downloading`
callback. -/
theorem runHooks_raised (c : Bool) (steps : List Step) :
    (runHooks c steps).2 = cancelHitsDownloading c steps := by
  induction steps generalizing c with
  | nil => rfl
  | cons s rest ih =>
    rw [runHooks, cancelHitsDownloading]
    by_cases hc : (c || s.cancelBefore) = true
    · cases hd : s.raw.status <;> simp [progress_hook, hc, hd, ih]
    · have hc2 : (c || s.cancelBefore) = false := by simpa using hc
      cases hd : s.raw.status <;> simp [progress_hook, hc2, hd, ih]

/-- Every trace of `download_video` splits into hook emissions followed by
one final terminal event. -/
theorem trace_decomp (run : LibRun) :
    ∃ es p, (∀ q ∈ es, q ∈ (runHooks false run.steps).1) ∧
      download_video_trace run = es ++ [p] ∧ isTerminal p.status = true := by
  unfold download_video_trace
  by_cases hpre : run.preCancel = true
  · exact ⟨[], cancelledInfo, by simp, by simp [hpre], rfl⟩
  · by_cases hr : (runHooks false run.steps).2 = true
    · exact ⟨(runHooks false run.steps).1, cancelledInfo, fun q hq => hq,
        by simp [hpre, hr], rfl⟩
    · cases hres : run.result with
      | success =>
          exact ⟨(runHooks false run.steps).1, completeInfo, fun q hq => hq,
            by simp [hpre, hr, hres], rfl⟩
      | dlError m =>
          exact ⟨(runHooks false run.steps).1, errorInfo m, fun q hq => hq,
            by simp [hpre, hr, hres], rfl⟩
      | osError m =>
          exact ⟨(runHooks false run.steps).1, errorInfo ("File error: " ++ m),
            fun q hq => hq, by simp [hpre, hr, hres], rfl⟩
      | unexpected m =>
          exact ⟨(runHooks false run.steps).1, errorInfo m, fun q hq => hq,
            by simp [hpre, hr, hres], rfl⟩

/-- A trace of non-terminal events followed by one terminal event counts
exactly one terminal event. -/
theorem countTerminal_concat (es : List ProgressInfo) (p : ProgressInfo)
    (hes : ∀ q ∈ es, isTerminal q.status = false) (hp : isTerminal p.status = true) :
    countTerminal (es ++ [p]) = 1 := by
  unfold countTerminal
  rw [List.filter_append]
  have h1 : es.filter (fun q => isTerminal q.status) = [] :=
    List.filter_eq_nil_iff.2 (fun q hq => by simp [hes q hq])
  rw [h1]
  simp [List.filter, hp]

/-! Claim C1. -/

/-- Claim C1, counterexample: when the library relays a raw `error`
callback through the hook (realistic under `ignoreerrors: False`, where a
failing download reports `status='error'` and then raises
`yt_dlp.utils.DownloadError`), the progress callback receives an `error`
event from the hook and a second `error` event from the `except` branch —
two terminal events, with an event following the first terminal one, so
"exactly one terminal event and no further events after it" fails. -/
theorem C1_counterexample :
    download_video_trace runErrorRelay = [errorInfo "network", errorInfo "network"] ∧
    countTerminal (download_video_trace runErrorRelay) = 2 := ⟨rfl, rfl⟩

/-- Claim C1, amended: every `download_video` call ends its callback
sequence with exactly one final terminal event (`complete`, `cancelled`
or `error`), and this holds for every library outcome — including an
unclassified exception, caught by the catch-all `except Exception`
branch.  Provided no raw `error` callback is relayed through the hook
during `ydl.download`, that final event is the only terminal event of the
call; a relayed raw `error` adds an extra `error` event before the final
one (see the counterexample). -/
theorem C1_one_terminal_event (run : LibRun)
    (hclean : ∀ s ∈ run.steps, s.raw.status ≠ RawStatus.error) :
    countTerminal (download_video_trace run) = 1 ∧
    ∃ p, (download_video_trace run).getLast? = some p ∧ isTerminal p.status = true := by
  rcases trace_decomp run with ⟨es, p, hmem, htr, hterm⟩
  have hes : ∀ q ∈ es, isTerminal q.status = false := by
    intro q hq
    rcases runHooks_mem false run.steps q (hmem q hq) with h | h | ⟨_, s, hs, hrs⟩
    · simp [isTerminal, h]
    · simp [isTerminal, h]
    · exact absurd hrs (hclean s hs)
  refine ⟨?_, p, ?_, hterm⟩
  · rw [htr]
    exact countTerminal_concat es p hes hterm
  · rw [htr]
    exact List.getLast?_concat es

/-- Claim C1, witness: a worker crash with an unclassified exception
still produces exactly one terminal event, delivered last. -/
theorem C1_one_terminal_event_witness :
    countTerminal (download_video_trace runUnexpected) = 1 ∧
    ∃ p, (download_video_trace runUnexpected).getLast? = some p ∧
      isTerminal p.status = true :=
  C1_one_terminal_event runUnexpected (by decide)

/-! Claim C4. -/

/-- Claim C4, counterexample: a cancel accepted while the operation is
active (here: between the last raw `downloading` callback and the
`finished` callback, so `cancel_download` ran with `self.downloading`
true and returned accepted) does not prevent a `complete` terminal event.
`download_video` checks `cancel_requested` before `ydl.download` and the
hook raises only on raw `downloading` callbacks, so when no further
`downloading` callback arrives the success path runs and emits
`complete`, contradicting "the terminal event ... is Cancelled or Failed,
and never Completed". -/
theorem C4_counterexample :
    cancelSeen runLateCancel = true ∧
    download_video_trace runLateCancel = [completeInfo] := ⟨rfl, rfl⟩

/-- Claim C4, amended: if the cancel request precedes the pre-download
cancellation check, or a raw `downloading` callback still arrives at or
after the accepted cancel, the terminal event is `cancelled` and no
`complete` event is ever emitted for the call.  A cancel accepted after
the last raw `downloading` callback, however, does not prevent a
`complete` terminal event (see the counterexample). -/
theorem C4_cancel_terminal (run : LibRun)
    (h : run.preCancel = true ∨ cancelHitsDownloading false run.steps = true) :
    (download_video_trace run).getLast? = some cancelledInfo ∧
    ∀ p ∈ download_video_trace run, p.status ≠ Status.complete := by
  by_cases hpre : run.preCancel = true
  · have htr : download_video_trace run = [cancelledInfo] := by
      simp [download_video_trace, hpre]
    rw [htr]
    refine ⟨rfl, ?_⟩
    intro p hp
    rcases List.mem_singleton.1 hp with rfl
    simp [cancelledInfo]
  · have hhit : cancelHitsDownloading false run.steps = true := h.resolve_left hpre
    have hr : (runHooks false run.steps).2 = true := by
      rw [runHooks_raised]
      exact hhit
    have htr : download_video_trace run
        = (runHooks false run.steps).1 ++ [cancelledInfo] := by
      simp [download_video_trace, hpre, hr]
    rw [htr]
    refine ⟨List.getLast?_concat _, ?_⟩
    intro p hp
    rcases List.mem_append.1 hp with hp2 | hp2
    · rcases runHooks_mem false run.steps p hp2 with h1 | h1 | ⟨h1, _⟩ <;> simp [h1]
    · rcases List.mem_singleton.1 hp2 with rfl
      simp [cancelledInfo]

/-- Claim C4, witness: a cancel accepted before the pre-download check
yields a `cancelled` terminal event and no `complete` event. -/
theorem C4_cancel_terminal_witness :
    (download_video_trace runPreCancel).getLast? = some cancelledInfo ∧
    ∀ p ∈ download_video_trace runPreCancel, p.status ≠ Status.complete :=
  C4_cancel_terminal runPreCancel (Or.inl rfl)

/-! Claim C2. -/

/-- With a fixed known nonzero total, the hook emits a `downloading` event
whose percent is the floor of `downloaded * 100 / total`. -/
theorem hook_downloading_percent (t d : Nat) (ht : t ≠ 0) :
    progress_hook startedState (rawDownloading (some t) d) =
      HookAct.emit { percent := d * 100 / t, status := Status.downloading } := by
  by_cases hd : d = 0
  · subst hd
    simp [progress_hook, startedState, rawDownloading, orTotal, percentOf, ht]
  · simp [progress_hook, startedState, rawDownloading, orTotal, percentOf, ht, hd]

/-- Claim C2, counterexample: the code applies no clamp.  When the byte
count exceeds the reported total (possible when the total is the
library's estimate), the emitted percent is 200, outside [0, 100] — so
"is clamped to the range [0,100]" fails as stated. -/
theorem C2_counterexample :
    progress_hook startedState overshootRaw =
      HookAct.emit { percent := 200, status := Status.downloading, error := none } ∧
    ¬ (200 : Nat) ≤ 100 := ⟨rfl, by decide⟩

/-- Claim C2, amended: for every sequence of raw `downloading` callbacks
with non-decreasing byte counts and a fixed known total, every callback
emits an event, each emitted percent equals `floor(downloaded*100/total)`
(truncated, not rounded), the emitted sequence is non-decreasing, and the
value lies within [0,100] whenever `downloaded ≤ total` — but no clamping
is applied, so byte counts above the total produce percents above 100. -/
theorem C2_percent_floor_monotone (t : Nat) (ds : List Nat) (ht : t ≠ 0)
    (hmono : List.Chain' (· ≤ ·) ds) :
    hookPercents t ds = ds.map (fun d => d * 100 / t) ∧
    List.Chain' (· ≤ ·) (hookPercents t ds) ∧
    ∀ d ∈ ds, d ≤ t → d * 100 / t ≤ 100 := by
  have hmap : hookPercents t ds = ds.map (fun d => d * 100 / t) := by
    clear hmono
    induction ds with
    | nil => rfl
    | cons d rest ih =>
        rw [hookPercents, List.filterMap_cons, hook_downloading_percent t d ht]
        rw [hookPercents] at ih
        rw [ih]
        rfl
  refine ⟨hmap, ?_, ?_⟩
  · rw [hmap]
    exact List.chain'_map_of_chain' _
      (fun a b hab => Nat.div_le_div_right (Nat.mul_le_mul_right 100 hab)) hmono
  · intro d _ hdt
    calc d * 100 / t ≤ t * 100 / t :=
          Nat.div_le_div_right (Nat.mul_le_mul_right 100 hdt)
      _ = 100 := Nat.mul_div_cancel_left 100 (Nat.pos_of_ne_zero ht)

/-- Claim C2, witness: total 100 with byte counts 50 then 100 emits
percents 50 then 100. -/
theorem C2_percent_floor_monotone_witness :
    hookPercents 100 [50, 100] = [50, 100].map (fun d => d * 100 / 100) ∧
    List.Chain' (· ≤ ·) (hookPercents 100 [50, 100]) ∧
    ∀ d ∈ [50, 100], d ≤ 100 → d * 100 / 100 ≤ 100 :=
  C2_percent_floor_monotone 100 [50, 100] (by decide)
    (List.chain'_cons.mpr ⟨by decide, List.chain'_singleton 100⟩)

/-! Claim C5. -/

/-- Claim C5: evaluation of the cited hooks at the failing input — a raw
`downloading` callback with `total_bytes = None`,
`total_bytes_estimate = None` and 1024 downloaded bytes.  The v7.1 hook
emits a fabricated fixed percent of 50; the `YTDownloader2025.py` hook
calls its callback with a fabricated 0; the TP hook emits an event whose
percent field is 0.  All carry a numeric percent, so no variant omits the
value as the claim requires. -/
theorem C5_fabricated_percent :
    progress_hook_v71 startedState rawUnknownTotal
      = HookAct.emit { percent := 50, status := Status.downloading, error := none } ∧
    progress_hook_2025 rawUnknownTotal = some 0 ∧
    progress_hook startedState rawUnknownTotal
      = HookAct.emit { percent := 0, status := Status.downloading, error := none } :=
  ⟨rfl, rfl, rfl⟩

/-! Claim C3. -/

/-- Claim C3, counterexample: `DownloadManagerApp.download_video` contains
no busy check.  Invoked while an operation is already active
(`download_in_progress` true) with valid URL, valid writable destination,
ffmpeg present and video info loaded, it reports no Busy error — no busy
outcome exists in the source — and spawns a second worker thread. -/
theorem C3_counterexample :
    activeApp.download_in_progress = true ∧
    app_download_video fs0 true activeApp "https://www.youtube.com/watch?v=abc" "/tmp/out"
      = (StartOutcome.started, activeApp, true) := ⟨rfl, by decide⟩

/-- Claim C3, amended: the method itself has no busy check and no Busy
error; single-flight is enforced only in the UI.  Whenever a call starts
a download, the resulting observer state has the Download button disabled
and the in-progress flag set, a button-gated click can no longer reach
the method, and no non-terminal progress event re-enables anything — only
a terminal event restores the buttons.  A direct call bypassing the
button while active spawns a second worker (see the counterexample). -/
theorem C3_single_flight (fs : FileSys) (ffmpegInstalled : Bool) (s s2 : AppState)
    (url dir : String) (spawned : Bool)
    (h : app_download_video fs ffmpegInstalled s url dir
      = (StartOutcome.started, s2, spawned)) :
    s2.downloadBtnEnabled = false ∧ s2.download_in_progress = true ∧
    (∀ u2 d2, clickDownload fs ffmpegInstalled s2 u2 d2 = none) ∧
    (∀ p, isTerminal p.status = false → app_update_progress s2 p = s2) := by
  have hfields : s2.downloadBtnEnabled = false ∧ s2.download_in_progress = true := by
    simp only [app_download_video] at h
    by_cases c1 : (pyStrip url == "") = true
    · rw [if_pos c1] at h
      exact absurd h (by simp)
    · rw [if_neg c1] at h
      by_cases c2 : (!is_valid_youtube_url (pyStrip url)) = true
      · rw [if_pos c2] at h
        exact absurd h (by simp)
      · rw [if_neg c2] at h
        by_cases c3 : (!validate_directory fs (pyStrip dir)) = true
        · rw [if_pos c3] at h
          exact absurd h (by simp)
        · rw [if_neg c3] at h
          by_cases c4 : (!ffmpegInstalled) = true
          · rw [if_pos c4] at h
            exact absurd h (by simp)
          · rw [if_neg c4] at h
            cases hvi : s.video_info with
            | none =>
                rw [hvi] at h
                exact absurd h (by simp)
            | some t =>
                rw [hvi] at h
                simp only [Prod.mk.injEq] at h
                obtain ⟨-, hs2, -⟩ := h
                rw [← hs2]
                exact ⟨rfl, rfl⟩
  refine ⟨hfields.1, hfields.2, ?_, ?_⟩
  · intro u2 d2
    simp [clickDownload, hfields.1]
  · intro p hp
    cases hst : p.status <;> simp [isTerminal, hst] at hp ⊢ <;>
      simp [app_update_progress, hst]

/-- Claim C3, witness: starting from an idle observer state, a start call
disables the Download button, sets the in-progress flag, blocks
button-gated clicks and ignores non-terminal events. -/
theorem C3_single_flight_witness :
    activeApp.downloadBtnEnabled = false ∧ activeApp.download_in_progress = true ∧
    (∀ u2 d2, clickDownload fs0 true activeApp u2 d2 = none) ∧
    (∀ p, isTerminal p.status = false → app_update_progress activeApp p = activeApp) :=
  C3_single_flight fs0 true idleApp activeApp "https://www.youtube.com/watch?v=abc"
    "/tmp/out" true (by decide)

/-! Claim C6. -/

/-- Claim C6: with a URL that passes validation but a destination that
fails `validate_directory` (missing or non-writable), the call returns
the invalid-directory message box synchronously, leaves the observer
state untouched, and spawns no worker thread — so no progress event is
ever emitted for the call (the downloader is never reached). -/
theorem C6_invalid_destination (fs : FileSys) (ffmpegInstalled : Bool) (s : AppState)
    (url dir : String) (h1 : (pyStrip url == "") = false)
    (h2 : is_valid_youtube_url (pyStrip url) = true)
    (h3 : validate_directory fs (pyStrip dir) = false) :
    app_download_video fs ffmpegInstalled s url dir
      = (StartOutcome.errInvalidDir, s, false) := by
  unfold app_download_video
  simp [h1, h2, h3]

/-- Claim C6, witness: a valid URL against a filesystem with no usable
directory fails synchronously with the invalid-directory outcome and no
spawned worker. -/
theorem C6_invalid_destination_witness :
    app_download_video fsEmpty true idleApp "https://www.youtube.com/watch?v=abc" "/nope"
      = (StartOutcome.errInvalidDir, idleApp, false) :=
  C6_invalid_destination fsEmpty true idleApp "https://www.youtube.com/watch?v=abc" "/nope"
    (by decide) (by decide) rfl

/-! Claim C7. -/

/-- Claim C7, counterexample: after a first accepted cancel
(`downloading` true, `cancel_requested` set), a second `cancel_download`
call tests `self.downloading` — still true until the worker's `finally`
block runs — and returns `True` again, not the `false` the claim
states. -/
theorem C7_counterexample :
    cancel_download (cancel_download { downloading := true, cancel_requested := false }).2
      = (true, { downloading := true, cancel_requested := true }) := rfl

/-- Claim C7, amended: a second `cancel_download` call is a no-op on the
state (setting `cancel_requested` again changes nothing), but its return
value is the `downloading` flag, so it returns `True` again while the
worker is still active and returns `False` only once the worker has
finished and cleared `downloading`. -/
theorem C7_idempotent_effect (s : DLState) :
    (cancel_download (cancel_download s).2).2 = (cancel_download s).2 ∧
    (cancel_download s).1 = s.downloading ∧
    (cancel_download (cancel_download s).2).1 = s.downloading := by
  cases s with
  | mk dl cr => cases dl <;> simp [cancel_download]

/-! Claim C8. -/

/-- Claim C8, counterexample: `cancel_download` takes no handle, so a
cancel meant for a stale operation (ghost handle 1) while a different
operation (ghost id 2) is active returns `True` — not the claimed
`false` — and sets `cancel_requested`, affecting the active operation's
events. -/
theorem C8_counterexample :
    cancel_download_handle 1 2 { downloading := true, cancel_requested := false }
      = (true, { downloading := true, cancel_requested := true }) := rfl

/-- Claim C8, amended: the code cannot compare handles.  When no
operation is active, `cancel_download` returns `false` and leaves the
state unchanged — hence no change in any emitted events; when an
operation is active it accepts the cancel regardless of which operation
the caller meant. -/
theorem C8_cancel_ignores_handle (handle activeOp : Nat) (s : DLState) :
    (s.downloading = false → cancel_download_handle handle activeOp s = (false, s)) ∧
    (s.downloading = true → (cancel_download_handle handle activeOp s).1 = true) := by
  constructor <;> intro h <;> simp [cancel_download_handle, cancel_download, h]

/-- Claim C8, witness: with no active operation, a cancel through a stale
ghost handle returns `false` and changes nothing. -/
theorem C8_cancel_ignores_handle_witness :
    cancel_download_handle 7 0 { downloading := false, cancel_requested := false }
      = (false, { downloading := false, cancel_requested := false }) :=
  (C8_cancel_ignores_handle 7 0 { downloading := false, cancel_requested := false }).1 rfl

/-! Claim C9. -/

/-- Whenever the collision loop returns a name, that name does not exist
in the directory, and it is either the original name or a
counter-suffixed candidate with counter at least the starting value. -/
theorem findFreeName_spec (files : List String) (isAudio : Bool) (base ext : String) :
    ∀ (fuel : Nat) (fname : String) (c : Nat) (r : String),
      findFreeName files isAudio base ext fuel fname c = some r →
      files.contains r = false ∧
      (r = fname ∨ ∃ k, c ≤ k ∧ r = mkCandidate isAudio base ext k) := by
  intro fuel
  induction fuel with
  | zero =>
      intro fname c r h
      simp [findFreeName] at h
  | succ n ih =>
      intro fname c r h
      rw [findFreeName] at h
      by_cases hmem : files.contains fname = true
      · rw [if_pos hmem] at h
        rcases ih _ _ _ h with ⟨h1, h2 | ⟨k, hk, hr⟩⟩
        · exact ⟨h1, Or.inr ⟨c, Nat.le_refl c, h2⟩⟩
        · exact ⟨h1, Or.inr ⟨k, Nat.le_of_succ_le hk, hr⟩⟩
      · rw [if_neg hmem] at h
        obtain rfl := Option.some.injEq _ _ ▸ h
        exact ⟨Bool.eq_false_iff.2 hmem, Or.inl rfl⟩

/-- Claim C9: the name the finished artifact is moved to is never a
pre-existing name of the destination directory — the `while
os.path.exists` loop only stops on a fresh name — and on a collision the
chosen name carries an incrementing counter suffix (counter starting
at 1). -/
theorem C9_no_overwrite (files : List String) (isAudio : Bool) (ext fname : String)
    (fuel : Nat) (r : String)
    (h : resolve_collision files isAudio ext fname fuel = some r) :
    files.contains r = false ∧
    (r = fname ∨ ∃ k, 1 ≤ k ∧
      r = mkCandidate isAudio (fname.dropRight (ext.length + 1)) ext k) ∧
    (files.contains fname = true →
      ∃ k, 1 ≤ k ∧ r = mkCandidate isAudio (fname.dropRight (ext.length + 1)) ext k) := by
  rcases findFreeName_spec files isAudio (fname.dropRight (ext.length + 1)) ext fuel
      fname 1 r h with ⟨h1, h2⟩
  refine ⟨h1, h2, fun hf => ?_⟩
  rcases h2 with rfl | h2
  · rw [hf] at h1
    cases h1
  · exact h2

/-- Claim C9, witness: moving `T (Audio).mp3` into a directory already
holding that name picks `T (Audio) (1) (Audio).mp3`, which is fresh. -/
theorem C9_no_overwrite_witness :
    (["T (Audio).mp3"].contains "T (Audio) (1) (Audio).mp3") = false ∧
    ("T (Audio) (1) (Audio).mp3" = "T (Audio).mp3" ∨ ∃ k, 1 ≤ k ∧
      "T (Audio) (1) (Audio).mp3"
        = mkCandidate true ("T (Audio).mp3".dropRight ("mp3".length + 1)) "mp3" k) ∧
    ((["T (Audio).mp3"].contains "T (Audio).mp3") = true →
      ∃ k, 1 ≤ k ∧ "T (Audio) (1) (Audio).mp3"
        = mkCandidate true ("T (Audio).mp3".dropRight ("mp3".length + 1)) "mp3" k) :=
  C9_no_overwrite ["T (Audio).mp3"] true "mp3" "T (Audio).mp3" 2
    "T (Audio) (1) (Audio).mp3" rfl

/-! Claim C10. -/

/-- Claim C10: `_cleanup_temp_files` removes from the directory it is
given exactly the files whose names end with one of the eight fixed
suffixes — regardless of which operation created them — and keeps every
other file; and a successfully completing `download_video` run applies it
to the final destination directory's file list. -/
theorem C10_cleanup_frame (files : List String) (f : String) (run : LibRun)
    (hf : f ∈ files) (hres : run.result = LibResult.success)
    (hpre : run.preCancel = false) (hraise : (runHooks false run.steps).2 = false) :
    (f ∈ cleanup_temp_files files ↔ is_temp f = false) ∧
    (∀ g ∈ cleanup_temp_files files, g ∈ files) ∧
    (is_temp f = true ↔ (strEndsWith f ".part" = true ∨ strEndsWith f ".temp" = true ∨
      strEndsWith f ".f140.mp4" = true ∨ strEndsWith f ".f137.mp4" = true ∨
      strEndsWith f ".f401.mp4" = true ∨ strEndsWith f ".m4a" = true ∨
      strEndsWith f ".webm" = true ∨ strEndsWith f ".ytdl" = true)) ∧
    download_video_fs files run = cleanup_temp_files files := by
  refine ⟨?_, ?_, ?_, ?_⟩
  · simp [cleanup_temp_files, List.mem_filter, hf]
  · intro g hg
    exact (List.mem_filter.1 hg).1
  · simp [is_temp, temp_extensions]
  · simp [download_video_fs, hpre, hraise, hres]

/-- Claim C10, witness: in a directory holding `a.part`, `b.mp4` and
`c.m4a`, a successful run's cleanup deletes `a.part` (and `c.m4a`) and
keeps `b.mp4`. -/
theorem C10_cleanup_frame_witness :
    ("a.part" ∈ cleanup_temp_files ["a.part", "b.mp4", "c.m4a"] ↔
      is_temp "a.part" = false) ∧
    (∀ g ∈ cleanup_temp_files ["a.part", "b.mp4", "c.m4a"],
      g ∈ ["a.part", "b.mp4", "c.m4a"]) ∧
    (is_temp "a.part" = true ↔ (strEndsWith "a.part" ".part" = true ∨
      strEndsWith "a.part" ".temp" = true ∨
      strEndsWith "a.part" ".f140.mp4" = true ∨ strEndsWith "a.part" ".f137.mp4" = true ∨
      strEndsWith "a.part" ".f401.mp4" = true ∨ strEndsWith "a.part" ".m4a" = true ∨
      strEndsWith "a.part" ".webm" = true ∨ strEndsWith "a.part" ".ytdl" = true)) ∧
    download_video_fs ["a.part", "b.mp4", "c.m4a"] runSuccess
      = cleanup_temp_files ["a.part", "b.mp4", "c.m4a"] :=
  C10_cleanup_frame ["a.part", "b.mp4", "c.m4a"] "a.part" runSuccess
    (by simp) rfl rfl rfl

end YTD
